import Mathlib

/-!
# clpe_ros: a shallow embedding of `src/ClpeNode.hpp` and `src/main.cpp`

Conventions of the embedding.

* C `float` values are elements of a type `F`, C `double` values of a type `D`;
  the implicit `float -> double` conversion of a braced initialiser is the
  function `widen : F → D`, and the literals `0` and `1` are `(0 : D)` and `(1 : D)`.
  No floating-point arithmetic occurs in the embedded code, only placement of values.
* C `int` results are `Int`; unsigned fields are `Nat`, reduced `% 2 ^ w` where a
  value is stored into a narrower field.
* An `unsigned char *` is the function `Nat → UInt8` giving the byte at each offset.
* `std::vector<T>` is `StdVector T`: the elements `[begin, end)` together with the
  allocated but unused cells `[end, begin + capacity)`. A byte copy through the raw pointer
  `data()` may land in the unused cells; `operator[]` is defined on the elements only.
* Undefined behaviour is the result `none` of a function into `Option`.
* The SDK client (template parameter `ClpeClientApi`) is a record of functions
  returning the integer status together with the values written to the out-parameters.
-/

namespace clpe

/-! ## Library types -/

/-- The `std::vector<T>` container: `elems` are the `size()` elements, `spare` is the raw
storage between `end()` and the end of the allocation. -/
structure StdVector (α : Type) where
  elems : List α
  spare : List α
  deriving DecidableEq, Repr

namespace StdVector

variable {α : Type}

/-- A default-constructed vector: no elements, no allocation. -/
def empty : StdVector α := ⟨[], []⟩

/-- The member `size()`. -/
def size (v : StdVector α) : Nat := v.elems.length

/-- The member `capacity()`. -/
def capacity (v : StdVector α) : Nat := v.elems.length + v.spare.length

/-- All cells of the allocation, elements first. -/
def cells (v : StdVector α) : List α := v.elems ++ v.spare

/-- Rebuild a vector of `n` elements from the cells of its allocation. -/
def ofCells (n : Nat) (cs : List α) : StdVector α := ⟨cs.take n, cs.drop n⟩

/-- The member `reserve(n)`: when `n` exceeds the capacity the elements move to a fresh
allocation of `n` cells, whose unused cells hold unspecified values (`fill`); the
size never changes. -/
def reserve (fill : α) (n : Nat) (v : StdVector α) : StdVector α :=
  if n ≤ v.capacity then v else ⟨v.elems, List.replicate (n - v.size) fill⟩

/-- The call `std::copy(first, last, v.data())`: `src` overwrites the leading cells of the
allocation. Nothing is returned when `src` does not fit in the allocation. -/
def copyToData (src : List α) (v : StdVector α) : Option (StdVector α) :=
  if src.length ≤ v.capacity then
    some (ofCells v.size (src ++ v.cells.drop src.length))
  else none

/-- The unchecked `operator[]` used as an rvalue: the element at index `i`. It is defined
only for `i < size()`; at any other index, reserved storage included, there is no
constructed element and the behaviour is undefined, which is the result `none`. -/
def index (v : StdVector α) (i : Nat) : Option α := v.elems[i]?

/-- The unchecked `operator[]` used as an assignment target, `v[i] = x`: element `i` is
replaced when `i < size()`; assigning at any other index, reserved storage included, is
an assignment to an object that was never constructed, undefined behaviour, which is the
result `none`. -/
def assign (v : StdVector α) (i : Nat) (x : α) : Option (StdVector α) :=
  if i < v.size then some ⟨v.elems.set i x, v.spare⟩ else none

/-- The range constructor `std::vector<T>(first, last)`. -/
def ofRange (src : List α) : StdVector α := ⟨src, []⟩

end StdVector

/-- The `std::error_category` singletons.
Modelled from the spec: `errors.hpp` is not among the sources; it declares the categories
`ConnectionError`, `GetEepromDataError` and `GetFrameError` (the domain tags Connection,
Eeprom and Frame) next to the category of a default `std::error_code`. -/
inductive ErrorCategory
  | system
  | ConnectionError
  | GetEepromDataError
  | GetFrameError
  deriving DecidableEq, Repr

/-- The `std::error_code` pair of an integer value and a category. -/
structure error_code where
  value : Int
  category : ErrorCategory
  deriving DecidableEq, Repr

/-- Modelled from the spec: `kNoError` is declared in `errors.hpp`, which is not among the
sources; success is the code 0, so it is the default `std::error_code`. -/
def kNoError : error_code := ⟨0, ErrorCategory.system⟩

/-- The struct `timeval`: two `long` fields. -/
structure timeval where
  tv_sec : Int
  tv_usec : Int
  deriving DecidableEq, Repr

/-- Conversion of an integer to `int32_t` (two's complement wrap). -/
def toInt32 (x : Int) : Int := (x + 2 ^ 31) % 2 ^ 32 - 2 ^ 31

/-- Conversion of an integer to `uint32_t`. -/
def toUInt32 (x : Int) : Nat := (x % 2 ^ 32).toNat

/-- The message `builtin_interfaces::msg::Time`. -/
structure Time where
  sec : Int
  nanosec : Nat
  deriving DecidableEq, Repr

/-- The message `std_msgs::msg::Header`. -/
structure Header where
  stamp : Time
  frame_id : String
  deriving DecidableEq, Repr

/-- A default-constructed header. -/
def Header.default : Header := ⟨⟨0, 0⟩, ""⟩

/-- The message `sensor_msgs::msg::RegionOfInterest`. -/
structure RegionOfInterest where
  x_offset : Nat
  y_offset : Nat
  height : Nat
  width : Nat
  do_rectify : Bool
  deriving DecidableEq, Repr

/-- The message `sensor_msgs::msg::CameraInfo`; `k`, `r` and `p` are the fixed arrays of
9, 9 and 12 doubles, `d` is a `std::vector<double>`. -/
structure CameraInfo (D : Type) where
  header : Header
  height : Nat
  width : Nat
  distortion_model : String
  d : List D
  k : List D
  r : List D
  p : List D
  binning_x : Nat
  binning_y : Nat
  roi : RegionOfInterest
  deriving DecidableEq

/-- The value `sensor_msgs::msg::CameraInfo()`. -/
def CameraInfo.default {D : Type} [Zero D] : CameraInfo D :=
  { header := Header.default
    height := 0
    width := 0
    distortion_model := ""
    d := []
    k := List.replicate 9 0
    r := List.replicate 9 0
    p := List.replicate 12 0
    binning_x := 0
    binning_y := 0
    roi := ⟨0, 0, 0, 0, false⟩ }

/-- The message `sensor_msgs::msg::Image`. -/
structure Image where
  header : Header
  height : Nat
  width : Nat
  encoding : String
  is_bigendian : Nat
  step : Nat
  data : StdVector UInt8
  deriving DecidableEq, Repr

/-- The value `sensor_msgs::msg::Image()`. -/
def Image.default : Image :=
  { header := Header.default
    height := 0
    width := 0
    encoding := ""
    is_bigendian := 0
    step := 0
    data := StdVector.empty }

/-- The constant `sensor_msgs::distortion_models::PLUMB_BOB`. -/
def PLUMB_BOB : String := "plumb_bob"

/-- The constant `sensor_msgs::distortion_models::EQUIDISTANT`. -/
def EQUIDISTANT : String := "equidistant"

/-- The constant `sensor_msgs::image_encodings::YUV422`. -/
def YUV422 : String := "yuv422"

/-! ## `ClpeNode.hpp` -/

/-- The enumerators of `enum class CalibrationModel : uint32_t`. -/
def CalibrationModel.Jhang : Nat := 0

/-- The second enumerator of `CalibrationModel`. -/
def CalibrationModel.FishEye : Nat := 1

/-- The packed struct `EepromData`. The record is filled from raw EEPROM bytes, so
`calibration_model` is the 32-bit value found there, enumerated or not. -/
structure EepromData (F : Type) where
  signature_code : Nat
  version : Nat
  calibration_model : Nat
  fx : F
  fy : F
  cx : F
  cy : F
  k1 : F
  k2 : F
  k3 : F
  k4 : F
  rms : F
  fov : F
  calibration_temperature : F
  reserved1 : List UInt8
  p1 : F
  p2 : F
  reserved2 : List UInt8
  checksum : Nat
  production_date : List UInt8

/-- The SDK client used by `ClpeNode`: each call gives the integer status and the values
written through the out-parameters. -/
structure ClpeClientApi (F : Type) where
  Clpe_Connection : String → Int
  Clpe_GetEepromData : Int → Int × EepromData F
  Clpe_GetFrameOneCam : Int → Int × (Nat → UInt8) × Nat × timeval

section Node

variable {F D : Type} [Zero D] [One D]

/-- The method `ClpeNode::Init`; `password` is the value of the ROS parameter. -/
def Init (api : ClpeClientApi F) (password : String) : error_code :=
  let result := api.Clpe_Connection password
  if result ≠ 0 then ⟨result, ErrorCategory.ConnectionError⟩
  else kNoError

/-- The method `ClpeNode::GetCameraInfo` of `ClpeNode.hpp`: the returned error code and the
final value of the reference parameter `cam_info`. -/
def GetCameraInfo (widen : F → D) (api : ClpeClientApi F) (cam_id : Int)
    (_cam_info : CameraInfo D) : error_code × CameraInfo D :=
  let cam_info : CameraInfo D := CameraInfo.default
  let cam_info := { cam_info with width := 1920 }
  let cam_info := { cam_info with height := 1080 }
  let result := (api.Clpe_GetEepromData cam_id).1
  let eeprom_data := (api.Clpe_GetEepromData cam_id).2
  if result ≠ 0 then (⟨result, ErrorCategory.GetEepromDataError⟩, cam_info)
  else
    let cam_info :=
      if eeprom_data.calibration_model = CalibrationModel.Jhang then
        { cam_info with distortion_model := PLUMB_BOB }
      else if eeprom_data.calibration_model = CalibrationModel.FishEye then
        { cam_info with distortion_model := EQUIDISTANT }
      else cam_info
    let cam_info :=
      { cam_info with
        k := [widen eeprom_data.fx, 0, widen eeprom_data.cx,
              0, widen eeprom_data.fy, widen eeprom_data.cy,
              0, 0, 1] }
    let cam_info :=
      { cam_info with
        d := [widen eeprom_data.k1, widen eeprom_data.k2, widen eeprom_data.p1,
              widen eeprom_data.p2, widen eeprom_data.k3, widen eeprom_data.k4] }
    (kNoError, cam_info)

end Node

/-- The bytes `buffer[0], ..., buffer[size - 1]` read by a copy from `buffer` to
`buffer + size`. -/
def readBytes (buffer : Nat → UInt8) (size : Nat) : List UInt8 :=
  (List.range size).map buffer

/-- The static method `ClpeNode::FillImageMsg`: the final value of the reference parameter
`image`; nothing when the copy would run past the allocation of `image.data`. The stamp
fields are `int32_t` and `uint32_t`, so the `long` values `tv_sec` and `tv_usec * 1000` are
converted on assignment; `step` is a `uint32_t` as well. -/
def FillImageMsg (buffer : Nat → UInt8) (size : Nat) (timestamp : timeval)
    (image : Image) : Option Image :=
  let image := { image with header := { image.header with frame_id := "base_link" } }
  let image :=
    { image with header := { image.header with
        stamp := { image.header.stamp with sec := toInt32 timestamp.tv_sec } } }
  let image :=
    { image with header := { image.header with
        stamp := { image.header.stamp with nanosec := toUInt32 (timestamp.tv_usec * 1000) } } }
  let image := { image with data := image.data.reserve 0 size }
  match image.data.copyToData (readBytes buffer size) with
  | none => none
  | some data =>
    let image := { image with data := data }
    let image := { image with encoding := YUV422 }
    let image := { image with width := 1920 }
    let image := { image with height := 1080 }
    let image := { image with step := (size / 1080) % 2 ^ 32 }
    let image := { image with is_bigendian := 0 }
    some image

/-- The method `ClpeNode::GetCameraImage` of `ClpeNode.hpp`: the returned error code and the
final value of the reference parameter `image`. -/
def GetCameraImage {F : Type} (api : ClpeClientApi F) (cam_id : Int) (image : Image) :
    Option (error_code × Image) :=
  let result := (api.Clpe_GetFrameOneCam cam_id).1
  let buffer := (api.Clpe_GetFrameOneCam cam_id).2.1
  let size := (api.Clpe_GetFrameOneCam cam_id).2.2.1
  let timestamp := (api.Clpe_GetFrameOneCam cam_id).2.2.2
  if result ≠ 0 then some (⟨result, ErrorCategory.GetFrameError⟩, image)
  else
    match FillImageMsg buffer size timestamp image with
    | none => none
    | some image => some (kNoError, image)

/-! ### Layout of `struct __attribute__((packed)) EepromData` -/

/-- One member declaration of a struct: its name, `sizeof` and natural alignment of its
type on the target (an array has the alignment of its element type). -/
structure FieldDecl where
  name : String
  size : Nat
  align : Nat
  deriving DecidableEq, Repr

/-- Round `n` up to a multiple of `a`. -/
def alignUp (a n : Nat) : Nat := (n + a - 1) / a * a

/-- Member offsets assigned by the compiler starting at offset `cur`: every member goes to
the next offset suitable for its alignment, and the attribute `packed` lowers every
alignment to 1. -/
def fieldOffsetsFrom (packed : Bool) (cur : Nat) : List FieldDecl → List Nat
  | [] => []
  | f :: fs =>
    let off := if packed then cur else alignUp f.align cur
    off :: fieldOffsetsFrom packed (off + f.size) fs

/-- Offset just past the last member. -/
def fieldsEndFrom (packed : Bool) (cur : Nat) : List FieldDecl → Nat
  | [] => cur
  | f :: fs =>
    let off := if packed then cur else alignUp f.align cur
    fieldsEndFrom packed (off + f.size) fs

/-- Alignment of the struct: 1 when packed, else the largest member alignment. -/
def structAlign (packed : Bool) (fs : List FieldDecl) : Nat :=
  if packed then 1 else (fs.map FieldDecl.align).foldl max 1

/-- The value of `sizeof` for a struct with the members `fs`. -/
def structSize (packed : Bool) (fs : List FieldDecl) : Nat :=
  alignUp (structAlign packed fs) (fieldsEndFrom packed 0 fs)

/-- The value of `offsetof` for the member called `name`. -/
def offsetOf (packed : Bool) (fs : List FieldDecl) (name : String) : Option Nat :=
  ((fs.zip (fieldOffsetsFrom packed 0 fs)).find? (fun p => p.1.name == name)).map Prod.snd

/-- The members of `EepromData` in `ClpeNode.hpp`, in declared order. -/
def EepromData.fields : List FieldDecl :=
  [ ⟨"signature_code", 2, 2⟩,
    ⟨"version", 8, 8⟩,
    ⟨"calibration_model", 4, 4⟩,
    ⟨"fx", 4, 4⟩,
    ⟨"fy", 4, 4⟩,
    ⟨"cx", 4, 4⟩,
    ⟨"cy", 4, 4⟩,
    ⟨"k1", 4, 4⟩,
    ⟨"k2", 4, 4⟩,
    ⟨"k3", 4, 4⟩,
    ⟨"k4", 4, 4⟩,
    ⟨"rms", 4, 4⟩,
    ⟨"fov", 4, 4⟩,
    ⟨"calibration_temperature", 4, 4⟩,
    ⟨"reserved1", 20, 1⟩,
    ⟨"p1", 4, 4⟩,
    ⟨"p2", 4, 4⟩,
    ⟨"reserved2", 8, 1⟩,
    ⟨"checksum", 2, 2⟩,
    ⟨"production_date", 11, 1⟩ ]

/-- Whether the struct carries `__attribute__((packed))`: it does. -/
def EepromData.packed : Bool := true

end clpe

/-! ## `main.cpp` -/

namespace main_cpp

open clpe

/-- The members of `EepromData` as declared in `main.cpp` (there `calibration_model` is a
plain `uint32_t`), in declared order; the struct is packed as well. -/
def EepromData_fields : List FieldDecl :=
  [ ⟨"signature_code", 2, 2⟩,
    ⟨"version", 8, 8⟩,
    ⟨"calibration_model", 4, 4⟩,
    ⟨"fx", 4, 4⟩,
    ⟨"fy", 4, 4⟩,
    ⟨"cx", 4, 4⟩,
    ⟨"cy", 4, 4⟩,
    ⟨"k1", 4, 4⟩,
    ⟨"k2", 4, 4⟩,
    ⟨"k3", 4, 4⟩,
    ⟨"k4", 4, 4⟩,
    ⟨"rms", 4, 4⟩,
    ⟨"fov", 4, 4⟩,
    ⟨"calibration_temperature", 4, 4⟩,
    ⟨"reserved1", 20, 1⟩,
    ⟨"p1", 4, 4⟩,
    ⟨"p2", 4, 4⟩,
    ⟨"reserved2", 8, 1⟩,
    ⟨"checksum", 2, 2⟩,
    ⟨"production_date", 11, 1⟩ ]

/-- The method `ClpeNode::GetCameraInfo` of `main.cpp`: the camera info returned, or the
status passed to `exit` when the EEPROM read fails. -/
def GetCameraInfo {F D : Type} [Zero D] [One D] (widen : F → D) (api : ClpeClientApi F)
    (cam_id : Int) : Except Int (CameraInfo D) :=
  let cam_info : CameraInfo D := CameraInfo.default
  let cam_info := { cam_info with width := 1920 }
  let cam_info := { cam_info with height := 1080 }
  let result := (api.Clpe_GetEepromData cam_id).1
  let eeprom_data := (api.Clpe_GetEepromData cam_id).2
  if result ≠ 0 then Except.error result
  else
    let cam_info :=
      { cam_info with
        k := [widen eeprom_data.fx, 0, widen eeprom_data.cx,
              0, widen eeprom_data.fy, widen eeprom_data.cy,
              0, 0, 1] }
    Except.ok cam_info

/-- The static method `ClpeNode::CreateImageMsg` of `main.cpp`. -/
def CreateImageMsg (buffer : Nat → UInt8) (size : Nat) : Image :=
  let image : Image := Image.default
  let image := { image with data := StdVector.ofRange (readBytes buffer size) }
  let image := { image with encoding := YUV422 }
  let image := { image with width := 1920 }
  let image := { image with height := 1080 }
  let image := { image with step := (size / 1080) % 2 ^ 32 }
  image

/-- The handle `image_transport::CameraPublisher`, identified by what it was advertised
with. -/
structure CameraPublisher where
  base_topic : String
  queue_size : Nat
  deriving DecidableEq, Repr

/-- The call `image_transport.advertiseCamera(base_topic, queue_size)`. -/
def advertiseCamera (base_topic : String) (queue_size : Nat) : CameraPublisher :=
  ⟨base_topic, queue_size⟩

/-- The static `camera_pubs` before `main` runs: an empty vector. -/
def camera_pubs_init : StdVector CameraPublisher := StdVector.empty

/-- The block "create camera publishers" of `main`, run on the table `camera_pubs`:
`reserve(4)` and then `camera_pubs[i] = advertiseCamera("cam_" + std::to_string(i), 10)`
for `i = 0, 1, 2, 3`. The result is `none` as soon as one of the assignments addresses an
index at or beyond `size()`, where no publisher object exists. -/
def createCameraPublishers (camera_pubs : StdVector CameraPublisher) :
    Option (StdVector CameraPublisher) :=
  (List.range 4).foldlM
    (fun pubs i => pubs.assign i (advertiseCamera ("cam_" ++ toString i) 10))
    (camera_pubs.reserve ⟨"", 0⟩ 4)

/-- What one run of the streaming callback does. -/
inductive CallbackResult (D : Type)
  /-- The call `exit(result)` inside `GetCameraInfo` ended the process. -/
  | exited (status : Int)
  /-- The lookup `camera_pubs[inst]` addressed an index at or beyond the table's `size()`. -/
  | outOfBounds (inst : Nat)
  /-- The pair was published on `pub` and the callback returned `status`. -/
  | returned (status : Int) (pub : CameraPublisher) (image : Image) (cam_info : CameraInfo D)
  deriving DecidableEq

/-- The lambda passed to `Clpe_StartStream` in `main`, run against the table `camera_pubs`;
`inst` is an `unsigned int`, converted to `int` for `GetCameraInfo`. -/
def streamCallback {F D : Type} [Zero D] [One D] (widen : F → D) (api : ClpeClientApi F)
    (camera_pubs : StdVector CameraPublisher)
    (inst : Nat) (buffer : Nat → UInt8) (size : Nat) (_frame_us : timeval) :
    CallbackResult D :=
  let image := CreateImageMsg buffer size
  match GetCameraInfo widen api (toInt32 inst) with
  | Except.error status => CallbackResult.exited status
  | Except.ok cam_info =>
    match camera_pubs.index inst with
    | none => CallbackResult.outOfBounds inst
    | some pub => CallbackResult.returned 0 pub image cam_info

end main_cpp

/-! ## Concrete test doubles used in the examples -/

namespace clpe

/-- An EEPROM record with the intrinsics of the end-to-end scenario
(`fx = fy = 1000`, `cx = 960`, `cy = 540`) and the given model field. -/
def sampleRecord (model : Nat) : EepromData Int :=
  { signature_code := 0, version := 0, calibration_model := model
    fx := 1000, fy := 1000, cx := 960, cy := 540
    k1 := 11, k2 := 12, k3 := 13, k4 := 14
    rms := 0, fov := 0, calibration_temperature := 0
    reserved1 := List.replicate 20 0
    p1 := 21, p2 := 22
    reserved2 := List.replicate 8 0
    checksum := 0
    production_date := List.replicate 11 0 }

/-- A test double of the SDK: every call returns `status`, the EEPROM holds
`sampleRecord model`, and the frame is the 3 bytes `1, 2, 3`. -/
def stubApi (status : Int) (model : Nat) : ClpeClientApi Int :=
  { Clpe_Connection := fun _ => status
    Clpe_GetEepromData := fun _ => (status, sampleRecord model)
    Clpe_GetFrameOneCam := fun _ => (status, fun i => UInt8.ofNat (i + 1), 3, ⟨5, 7⟩) }

/-- The SDK double `api` with the model field of every EEPROM record replaced by `m`. -/
def withModel {F : Type} (api : ClpeClientApi F) (m : Nat) : ClpeClientApi F :=
  { api with
    Clpe_GetEepromData := fun c =>
      ((api.Clpe_GetEepromData c).1, { (api.Clpe_GetEepromData c).2 with calibration_model := m }) }

end clpe

/-! ## Helper lemmas -/

namespace clpe

theorem StdVector.reserve_elems {α : Type} (fill : α) (n : Nat) (v : StdVector α) :
    (v.reserve fill n).elems = v.elems := by
  unfold StdVector.reserve
  split <;> rfl

theorem StdVector.le_capacity_reserve {α : Type} (fill : α) (n : Nat) (v : StdVector α) :
    n ≤ (v.reserve fill n).capacity := by
  unfold StdVector.reserve
  split
  · assumption
  · simp only [StdVector.capacity, StdVector.size, List.length_replicate] at *
    omega

theorem readBytes_length (buffer : Nat → UInt8) (size : Nat) :
    (readBytes buffer size).length = size := by
  simp [readBytes]

/-- The copy inside `FillImageMsg` always fits: the function returns an image, whose
fields are the ones listed. -/
theorem FillImageMsg_eq (buffer : Nat → UInt8) (size : Nat) (timestamp : timeval)
    (image : Image) :
    FillImageMsg buffer size timestamp image =
      some
        { header := ⟨⟨toInt32 timestamp.tv_sec, toUInt32 (timestamp.tv_usec * 1000)⟩,
                     "base_link"⟩
          height := 1080
          width := 1920
          encoding := YUV422
          is_bigendian := 0
          step := (size / 1080) % 2 ^ 32
          data := StdVector.ofCells image.data.size
            (readBytes buffer size ++
              (image.data.reserve 0 size).cells.drop (readBytes buffer size).length) } := by
  have hcap := StdVector.le_capacity_reserve (0 : UInt8) size image.data
  have hel := StdVector.reserve_elems (0 : UInt8) size image.data
  simp only [FillImageMsg, StdVector.copyToData, readBytes_length, hcap, if_true,
    StdVector.size, hel]

/-- The value of `GetCameraInfo` of `ClpeNode.hpp` after a successful EEPROM read. -/
theorem GetCameraInfo_of_success {F D : Type} [Zero D] [One D] (widen : F → D)
    (api : ClpeClientApi F) (cam_id : Int) (cam_info : CameraInfo D)
    (h : (api.Clpe_GetEepromData cam_id).1 = 0) :
    GetCameraInfo widen api cam_id cam_info =
      (kNoError,
        { (CameraInfo.default : CameraInfo D) with
          width := 1920
          height := 1080
          distortion_model :=
            if (api.Clpe_GetEepromData cam_id).2.calibration_model = CalibrationModel.Jhang then
              PLUMB_BOB
            else if (api.Clpe_GetEepromData cam_id).2.calibration_model
                = CalibrationModel.FishEye then
              EQUIDISTANT
            else ""
          k := [widen (api.Clpe_GetEepromData cam_id).2.fx, 0,
                widen (api.Clpe_GetEepromData cam_id).2.cx,
                0, widen (api.Clpe_GetEepromData cam_id).2.fy,
                widen (api.Clpe_GetEepromData cam_id).2.cy,
                0, 0, 1]
          d := [widen (api.Clpe_GetEepromData cam_id).2.k1,
                widen (api.Clpe_GetEepromData cam_id).2.k2,
                widen (api.Clpe_GetEepromData cam_id).2.p1,
                widen (api.Clpe_GetEepromData cam_id).2.p2,
                widen (api.Clpe_GetEepromData cam_id).2.k3,
                widen (api.Clpe_GetEepromData cam_id).2.k4] }) := by
  simp only [GetCameraInfo, h, ne_eq, not_true_eq_false, if_false]
  split_ifs <;> rfl

end clpe

/-! ## Calibration mapping (`GetCameraInfo`) -/

namespace clpe

section

variable {F D : Type} [Zero D] [One D]

/-- C1: when the EEPROM read returns 0, `GetCameraInfo` of `ClpeNode.hpp` returns `kNoError`
and sets the distortion-model tag to "plumb_bob" for a record whose `calibration_model` is
`Jhang` (encoded 0) and to "equidistant" for one whose `calibration_model` is `FishEye`
(encoded 1). -/
theorem GetCameraInfo_distortion_model (widen : F → D) (api : ClpeClientApi F) (cam_id : Int)
    (cam_info : CameraInfo D) (h : (api.Clpe_GetEepromData cam_id).1 = 0) :
    CalibrationModel.Jhang = 0 ∧ CalibrationModel.FishEye = 1 ∧
    (GetCameraInfo widen api cam_id cam_info).1 = kNoError ∧
    ((api.Clpe_GetEepromData cam_id).2.calibration_model = CalibrationModel.Jhang →
      (GetCameraInfo widen api cam_id cam_info).2.distortion_model = "plumb_bob") ∧
    ((api.Clpe_GetEepromData cam_id).2.calibration_model = CalibrationModel.FishEye →
      (GetCameraInfo widen api cam_id cam_info).2.distortion_model = "equidistant") := by
  refine ⟨rfl, rfl, ?_, ?_, ?_⟩
  · simp [GetCameraInfo, h]
  · intro hm
    simp [GetCameraInfo, h, hm, PLUMB_BOB]
  · intro hm
    simp [GetCameraInfo, h, hm, EQUIDISTANT, CalibrationModel.FishEye, CalibrationModel.Jhang]

/-- C2 (amended): `GetCameraInfo` of `ClpeNode.hpp` returns `kNoError` exactly when the EEPROM
read returns 0, whatever the `calibration_model` field holds; for a record whose
`calibration_model` is neither 0 nor 1 the distortion-model tag keeps its default, the empty
string, while `k` and `d` are filled in as for any other record. -/
theorem GetCameraInfo_unknown_model (widen : F → D) (api : ClpeClientApi F) (cam_id : Int)
    (cam_info : CameraInfo D) :
    ((GetCameraInfo widen api cam_id cam_info).1 = kNoError ↔
      (api.Clpe_GetEepromData cam_id).1 = 0) ∧
    ((api.Clpe_GetEepromData cam_id).1 = 0 →
      (api.Clpe_GetEepromData cam_id).2.calibration_model ≠ CalibrationModel.Jhang →
      (api.Clpe_GetEepromData cam_id).2.calibration_model ≠ CalibrationModel.FishEye →
      (GetCameraInfo widen api cam_id cam_info).2.distortion_model = "" ∧
      (GetCameraInfo widen api cam_id cam_info).2.k =
        [widen (api.Clpe_GetEepromData cam_id).2.fx, 0, widen (api.Clpe_GetEepromData cam_id).2.cx,
         0, widen (api.Clpe_GetEepromData cam_id).2.fy, widen (api.Clpe_GetEepromData cam_id).2.cy,
         0, 0, 1] ∧
      (GetCameraInfo widen api cam_id cam_info).2.d =
        [widen (api.Clpe_GetEepromData cam_id).2.k1, widen (api.Clpe_GetEepromData cam_id).2.k2,
         widen (api.Clpe_GetEepromData cam_id).2.p1, widen (api.Clpe_GetEepromData cam_id).2.p2,
         widen (api.Clpe_GetEepromData cam_id).2.k3,
         widen (api.Clpe_GetEepromData cam_id).2.k4]) := by
  constructor
  · by_cases h : (api.Clpe_GetEepromData cam_id).1 = 0
    · simp [GetCameraInfo, h]
    · simp [GetCameraInfo, h, kNoError]
  · intro h hj hf
    simp [GetCameraInfo, h, hj, hf, CameraInfo.default]

/-- C3: when the EEPROM read returns 0, `GetCameraInfo` (in `ClpeNode.hpp` and in `main.cpp`)
yields the row-major intrinsic matrix `k = [fx, 0, cx, 0, fy, cy, 0, 0, 1]` built from the
record, with width 1920 and height 1080. -/
theorem GetCameraInfo_intrinsics (widen : F → D) (api : ClpeClientApi F) (cam_id : Int)
    (cam_info : CameraInfo D) (h : (api.Clpe_GetEepromData cam_id).1 = 0) :
    (GetCameraInfo widen api cam_id cam_info).1 = kNoError ∧
    (GetCameraInfo widen api cam_id cam_info).2.k =
      [widen (api.Clpe_GetEepromData cam_id).2.fx, 0, widen (api.Clpe_GetEepromData cam_id).2.cx,
       0, widen (api.Clpe_GetEepromData cam_id).2.fy, widen (api.Clpe_GetEepromData cam_id).2.cy,
       0, 0, 1] ∧
    (GetCameraInfo widen api cam_id cam_info).2.width = 1920 ∧
    (GetCameraInfo widen api cam_id cam_info).2.height = 1080 ∧
    ∃ info, main_cpp.GetCameraInfo widen api cam_id = Except.ok info ∧
      info.k =
        [widen (api.Clpe_GetEepromData cam_id).2.fx, 0, widen (api.Clpe_GetEepromData cam_id).2.cx,
         0, widen (api.Clpe_GetEepromData cam_id).2.fy, widen (api.Clpe_GetEepromData cam_id).2.cy,
         0, 0, 1] ∧
      info.width = 1920 ∧ info.height = 1080 := by
  rw [GetCameraInfo_of_success widen api cam_id cam_info h]
  refine ⟨rfl, rfl, rfl, rfl, ?_⟩
  simp only [main_cpp.GetCameraInfo, h, ne_eq, not_true_eq_false, if_false]
  exact ⟨_, rfl, rfl, rfl, rfl⟩

/-- C4: when the EEPROM read returns 0, `GetCameraInfo` of `ClpeNode.hpp` yields a distortion
vector of exactly 6 elements in the order `[k1, k2, p1, p2, k3, k4]`, and the vector stays the
same when the record's `calibration_model` field is replaced by any other value. -/
theorem GetCameraInfo_distortion_vector (widen : F → D) (api : ClpeClientApi F) (cam_id : Int)
    (cam_info : CameraInfo D) (h : (api.Clpe_GetEepromData cam_id).1 = 0) :
    (GetCameraInfo widen api cam_id cam_info).2.d =
      [widen (api.Clpe_GetEepromData cam_id).2.k1, widen (api.Clpe_GetEepromData cam_id).2.k2,
       widen (api.Clpe_GetEepromData cam_id).2.p1, widen (api.Clpe_GetEepromData cam_id).2.p2,
       widen (api.Clpe_GetEepromData cam_id).2.k3, widen (api.Clpe_GetEepromData cam_id).2.k4] ∧
    (GetCameraInfo widen api cam_id cam_info).2.d.length = 6 ∧
    ∀ m : Nat, (GetCameraInfo widen (withModel api m) cam_id cam_info).2.d =
      (GetCameraInfo widen api cam_id cam_info).2.d := by
  have key : ∀ api2 : ClpeClientApi F, (api2.Clpe_GetEepromData cam_id).1 = 0 →
      (GetCameraInfo widen api2 cam_id cam_info).2.d =
        [widen (api2.Clpe_GetEepromData cam_id).2.k1, widen (api2.Clpe_GetEepromData cam_id).2.k2,
         widen (api2.Clpe_GetEepromData cam_id).2.p1, widen (api2.Clpe_GetEepromData cam_id).2.p2,
         widen (api2.Clpe_GetEepromData cam_id).2.k3,
         widen (api2.Clpe_GetEepromData cam_id).2.k4] := by
    intro api2 h2
    rw [GetCameraInfo_of_success widen api2 cam_id cam_info h2]
  refine ⟨key api h, ?_, ?_⟩
  · rw [key api h]
    rfl
  · intro m
    rw [key api h, key (withModel api m) (by simpa [withModel] using h)]
    rfl

end

/-- C1, at the test double: model 0 gives "plumb_bob" and model 1 gives "equidistant". -/
theorem GetCameraInfo_distortion_model_witness :
    ((stubApi 0 0).Clpe_GetEepromData 3).1 = 0 ∧
    (GetCameraInfo (fun x : Int => x) (stubApi 0 0) 3 CameraInfo.default).2.distortion_model
      = "plumb_bob" ∧
    (GetCameraInfo (fun x : Int => x) (stubApi 0 1) 3 CameraInfo.default).2.distortion_model
      = "equidistant" :=
  ⟨rfl,
   (GetCameraInfo_distortion_model (fun x : Int => x) (stubApi 0 0) 3 CameraInfo.default
      rfl).2.2.2.1 rfl,
   (GetCameraInfo_distortion_model (fun x : Int => x) (stubApi 0 1) 3 CameraInfo.default
      rfl).2.2.2.2 rfl⟩

/-- C2, as stated, fails: the EEPROM read succeeds on a record whose model field is 2 and
`GetCameraInfo` returns `kNoError`, although the field is neither `Jhang` nor `FishEye`. -/
theorem GetCameraInfo_unknown_model_counterexample :
    ¬ ((GetCameraInfo (fun x : Int => x) (stubApi 0 2) 3 CameraInfo.default).1 = kNoError →
        (((stubApi 0 2).Clpe_GetEepromData 3).2.calibration_model = CalibrationModel.Jhang ∨
         ((stubApi 0 2).Clpe_GetEepromData 3).2.calibration_model = CalibrationModel.FishEye)) := by
  decide

/-- C2 (amended), at the test double with model field 2: success with an empty tag. -/
theorem GetCameraInfo_unknown_model_witness :
    ((stubApi 0 2).Clpe_GetEepromData 3).1 = 0 ∧
    (GetCameraInfo (fun x : Int => x) (stubApi 0 2) 3 CameraInfo.default).2.distortion_model = "" ∧
    (GetCameraInfo (fun x : Int => x) (stubApi 0 2) 3 CameraInfo.default).2.k =
      [1000, 0, 960, 0, 1000, 540, 0, 0, 1] ∧
    (GetCameraInfo (fun x : Int => x) (stubApi 0 2) 3 CameraInfo.default).2.d =
      [11, 12, 21, 22, 13, 14] :=
  ⟨rfl,
   (GetCameraInfo_unknown_model (fun x : Int => x) (stubApi 0 2) 3 CameraInfo.default).2
      rfl (by decide) (by decide)⟩

/-- C3, at the scenario `fx = 1000, fy = 1000, cx = 960, cy = 540`. -/
theorem GetCameraInfo_intrinsics_witness :
    ((stubApi 0 0).Clpe_GetEepromData 3).1 = 0 ∧
    (GetCameraInfo (fun x : Int => x) (stubApi 0 0) 3 CameraInfo.default).2.k =
      [1000, 0, 960, 0, 1000, 540, 0, 0, 1] ∧
    (GetCameraInfo (fun x : Int => x) (stubApi 0 0) 3 CameraInfo.default).2.width = 1920 ∧
    (GetCameraInfo (fun x : Int => x) (stubApi 0 0) 3 CameraInfo.default).2.height = 1080 :=
  ⟨rfl,
   (GetCameraInfo_intrinsics (fun x : Int => x) (stubApi 0 0) 3 CameraInfo.default rfl).2.1,
   (GetCameraInfo_intrinsics (fun x : Int => x) (stubApi 0 0) 3 CameraInfo.default rfl).2.2.1,
   (GetCameraInfo_intrinsics (fun x : Int => x) (stubApi 0 0) 3 CameraInfo.default rfl).2.2.2.1⟩

/-- C4, at the test double: the same vector for the models `Jhang` and `FishEye`. -/
theorem GetCameraInfo_distortion_vector_witness :
    ((stubApi 0 0).Clpe_GetEepromData 3).1 = 0 ∧
    (GetCameraInfo (fun x : Int => x) (stubApi 0 0) 3 CameraInfo.default).2.d =
      [11, 12, 21, 22, 13, 14] ∧
    (GetCameraInfo (fun x : Int => x) (withModel (stubApi 0 0) 1) 3 CameraInfo.default).2.d =
      (GetCameraInfo (fun x : Int => x) (stubApi 0 0) 3 CameraInfo.default).2.d :=
  ⟨rfl,
   (GetCameraInfo_distortion_vector (fun x : Int => x) (stubApi 0 0) 3 CameraInfo.default rfl).1,
   (GetCameraInfo_distortion_vector (fun x : Int => x) (stubApi 0 0) 3 CameraInfo.default
      rfl).2.2 1⟩

end clpe

/-! ## Frame extraction (`FillImageMsg`, `GetCameraImage`) -/

namespace clpe

/-- C5 (what the code does): applied to a default-constructed image, `FillImageMsg` returns
an image whose `data` still has `size()` 0 for every frame, because `reserve` allocates
without adding elements and the copy goes through the raw pointer `data()`: the frame bytes
lie in the unused part of the allocation and none of them is an element of `image.data`.
For the 3-byte frame `1, 2, 3` the resulting `image.data` has 0 elements, not 3. -/
theorem FillImageMsg_default_data_size :
    (∀ (buffer : Nat → UInt8) (size : Nat) (timestamp : timeval),
      ∃ img, FillImageMsg buffer size timestamp Image.default = some img ∧
        img.data.size = 0 ∧ img.data.elems = [] ∧ img.data.spare = readBytes buffer size) ∧
    (FillImageMsg (fun i => UInt8.ofNat (i + 1)) 3 ⟨5, 7⟩ Image.default).map
        (fun img => (img.data.size, img.data.elems, img.data.spare))
      = some (0, [], [1, 2, 3]) := by
  refine ⟨?_, by decide⟩
  intro buffer size timestamp
  refine ⟨_, FillImageMsg_eq buffer size timestamp Image.default, rfl, rfl, ?_⟩
  have hlen : ((Image.default.data.reserve 0 size).cells).length ≤ size := by
    simp only [Image.default, StdVector.empty, StdVector.reserve, StdVector.capacity,
      StdVector.size, StdVector.cells]
    split <;> simp_all
  simp only [StdVector.ofCells, StdVector.size, readBytes_length]
  rw [List.drop_eq_nil_of_le hlen, List.append_nil]
  rfl

/-- C7: when the frame read returns a non-zero status, `GetCameraImage` of `ClpeNode.hpp`
returns the error built from that status in the category `GetFrameError`, which is not
`kNoError`, and the output image is exactly the image passed in: `FillImageMsg` is not
applied and no placeholder image is produced. -/
theorem GetCameraImage_failure_keeps_image {F : Type} (api : ClpeClientApi F) (cam_id : Int)
    (image : Image) (h : (api.Clpe_GetFrameOneCam cam_id).1 ≠ 0) :
    GetCameraImage api cam_id image =
      some (⟨(api.Clpe_GetFrameOneCam cam_id).1, ErrorCategory.GetFrameError⟩, image) ∧
    (⟨(api.Clpe_GetFrameOneCam cam_id).1, ErrorCategory.GetFrameError⟩ : error_code)
      ≠ kNoError := by
  constructor
  · simp [GetCameraImage, h]
  · simp [kNoError]

/-- C7, at a test double whose frame read returns 7. -/
theorem GetCameraImage_failure_keeps_image_witness :
    ((stubApi 7 0).Clpe_GetFrameOneCam 2).1 ≠ 0 ∧
    GetCameraImage (stubApi 7 0) 2 { Image.default with width := 640, step := 9 } =
      some (⟨7, ErrorCategory.GetFrameError⟩, { Image.default with width := 640, step := 9 }) :=
  ⟨by decide,
   (GetCameraImage_failure_keeps_image (stubApi 7 0) 2
      { Image.default with width := 640, step := 9 } (by decide)).1⟩

/-- C9: for every frame size below `2 ^ 32`, `FillImageMsg` returns an image with width 1920,
height 1080 and `step = size / 1080`; hence `step * 1080 ≤ size`, with equality exactly when
1080 divides `size`. `CreateImageMsg` of `main.cpp` sets the same three fields. -/
theorem FillImageMsg_step (buffer : Nat → UInt8) (size : Nat) (timestamp : timeval)
    (image : Image) (h : size < 2 ^ 32) :
    (∃ img, FillImageMsg buffer size timestamp image = some img ∧
      img.width = 1920 ∧ img.height = 1080 ∧ img.step = size / 1080 ∧
      img.step * 1080 ≤ size ∧ (img.step * 1080 = size ↔ 1080 ∣ size)) ∧
    (main_cpp.CreateImageMsg buffer size).width = 1920 ∧
    (main_cpp.CreateImageMsg buffer size).height = 1080 ∧
    (main_cpp.CreateImageMsg buffer size).step = size / 1080 := by
  have hstep : size / 1080 % 2 ^ 32 = size / 1080 := by
    apply Nat.mod_eq_of_lt
    exact lt_of_le_of_lt (Nat.div_le_self size 1080) h
  refine ⟨⟨_, FillImageMsg_eq buffer size timestamp image, rfl, rfl, hstep, ?_, ?_⟩,
    rfl, rfl, hstep⟩
  · show size / 1080 % 2 ^ 32 * 1080 ≤ size
    rw [hstep]
    exact Nat.div_mul_le_self size 1080
  · show size / 1080 % 2 ^ 32 * 1080 = size ↔ 1080 ∣ size
    rw [hstep]
    constructor
    · intro he
      exact ⟨size / 1080, by rw [Nat.mul_comm]; exact he.symm⟩
    · intro hd
      exact Nat.div_mul_cancel hd

/-- C9, at `size = 4147200` (1920 x 1080 pixels of 2 bytes): the step is 3840. -/
theorem FillImageMsg_step_witness :
    4147200 < 2 ^ 32 ∧
    ∃ img, FillImageMsg (fun _ => 0) 4147200 ⟨0, 0⟩ Image.default = some img ∧
      img.width = 1920 ∧ img.height = 1080 ∧ img.step = 3840 ∧ img.step * 1080 = 4147200 := by
  obtain ⟨⟨img, himg, hw, hh, hs, _, hiff⟩, _⟩ :=
    FillImageMsg_step (fun _ => 0) 4147200 ⟨0, 0⟩ Image.default (by norm_num)
  exact ⟨by norm_num, img, himg, hw, hh, by rw [hs], hiff.mpr ⟨3840, by norm_num⟩⟩

end clpe

/-! ## Error mapping of SDK return codes -/

namespace clpe

/-- C6: for every return code of the SDK, each of `Init`, `GetCameraInfo` and
`GetCameraImage` of `ClpeNode.hpp` returns `kNoError` if and only if the code is 0, and
otherwise returns the error whose value is that code and whose category is the one of the
operation (`ConnectionError`, `GetEepromDataError`, `GetFrameError`); two different
non-zero codes give two different errors. -/
theorem sdk_return_code_mapping {F D : Type} [Zero D] [One D] (widen : F → D)
    (api api2 : ClpeClientApi F) (password : String) (cam_id : Int) (cam_info : CameraInfo D)
    (image : Image) :
    ((Init api password = kNoError ↔ api.Clpe_Connection password = 0) ∧
     (api.Clpe_Connection password ≠ 0 →
        Init api password = ⟨api.Clpe_Connection password, ErrorCategory.ConnectionError⟩) ∧
     (api.Clpe_Connection password ≠ 0 → api2.Clpe_Connection password ≠ 0 →
        api.Clpe_Connection password ≠ api2.Clpe_Connection password →
        Init api password ≠ Init api2 password)) ∧
    (((GetCameraInfo widen api cam_id cam_info).1 = kNoError ↔
        (api.Clpe_GetEepromData cam_id).1 = 0) ∧
     ((api.Clpe_GetEepromData cam_id).1 ≠ 0 →
        (GetCameraInfo widen api cam_id cam_info).1 =
          ⟨(api.Clpe_GetEepromData cam_id).1, ErrorCategory.GetEepromDataError⟩) ∧
     ((api.Clpe_GetEepromData cam_id).1 ≠ 0 → (api2.Clpe_GetEepromData cam_id).1 ≠ 0 →
        (api.Clpe_GetEepromData cam_id).1 ≠ (api2.Clpe_GetEepromData cam_id).1 →
        (GetCameraInfo widen api cam_id cam_info).1 ≠
          (GetCameraInfo widen api2 cam_id cam_info).1)) ∧
    (∃ e img e2 img2, GetCameraImage api cam_id image = some (e, img) ∧
        GetCameraImage api2 cam_id image = some (e2, img2) ∧
        (e = kNoError ↔ (api.Clpe_GetFrameOneCam cam_id).1 = 0) ∧
        ((api.Clpe_GetFrameOneCam cam_id).1 ≠ 0 →
          e = ⟨(api.Clpe_GetFrameOneCam cam_id).1, ErrorCategory.GetFrameError⟩) ∧
        ((api.Clpe_GetFrameOneCam cam_id).1 ≠ 0 → (api2.Clpe_GetFrameOneCam cam_id).1 ≠ 0 →
          (api.Clpe_GetFrameOneCam cam_id).1 ≠ (api2.Clpe_GetFrameOneCam cam_id).1 →
          e ≠ e2)) := by
  have hInit : ∀ a : ClpeClientApi F, a.Clpe_Connection password ≠ 0 →
      Init a password = ⟨a.Clpe_Connection password, ErrorCategory.ConnectionError⟩ := by
    intro a h
    simp [Init, h]
  have hInfo : ∀ a : ClpeClientApi F, (a.Clpe_GetEepromData cam_id).1 ≠ 0 →
      (GetCameraInfo widen a cam_id cam_info).1 =
        ⟨(a.Clpe_GetEepromData cam_id).1, ErrorCategory.GetEepromDataError⟩ := by
    intro a h
    simp [GetCameraInfo, h]
  have hImage : ∀ a : ClpeClientApi F, ∃ e img, GetCameraImage a cam_id image = some (e, img) ∧
      ((a.Clpe_GetFrameOneCam cam_id).1 = 0 → e = kNoError) ∧
      ((a.Clpe_GetFrameOneCam cam_id).1 ≠ 0 →
        e = ⟨(a.Clpe_GetFrameOneCam cam_id).1, ErrorCategory.GetFrameError⟩) := by
    intro a
    by_cases h : (a.Clpe_GetFrameOneCam cam_id).1 = 0
    · obtain ⟨img, himg⟩ : ∃ img, FillImageMsg (a.Clpe_GetFrameOneCam cam_id).2.1
          (a.Clpe_GetFrameOneCam cam_id).2.2.1 (a.Clpe_GetFrameOneCam cam_id).2.2.2 image
            = some img := ⟨_, FillImageMsg_eq _ _ _ _⟩
      refine ⟨kNoError, img, ?_, fun _ => rfl, fun hne => absurd h hne⟩
      simp only [GetCameraImage, h, ne_eq, not_true_eq_false, if_false, himg]
    · exact ⟨_, image, by simp [GetCameraImage, h], fun h0 => absurd h0 h, fun _ => rfl⟩
  refine ⟨⟨?_, hInit api, ?_⟩, ⟨?_, hInfo api, ?_⟩, ?_⟩
  · by_cases h : api.Clpe_Connection password = 0
    · simp [Init, h]
    · simp [Init, h, kNoError]
  · intro h1 h2 hne
    rw [hInit api h1, hInit api2 h2]
    intro heq
    exact hne (congrArg error_code.value heq)
  · by_cases h : (api.Clpe_GetEepromData cam_id).1 = 0
    · simp [GetCameraInfo, h]
    · simp [GetCameraInfo, h, kNoError]
  · intro h1 h2 hne
    rw [hInfo api h1, hInfo api2 h2]
    intro heq
    exact hne (congrArg error_code.value heq)
  · obtain ⟨e, img, he, h0, hn⟩ := hImage api
    obtain ⟨e2, img2, he2, _, hn2⟩ := hImage api2
    refine ⟨e, img, e2, img2, he, he2, ⟨?_, h0⟩, hn, ?_⟩
    · intro hk
      by_contra hne
      rw [hn hne] at hk
      exact hne (congrArg error_code.value hk)
    · intro h1 h2 hne
      rw [hn h1, hn2 h2]
      intro heq
      exact hne (congrArg error_code.value heq)

/-- C6, at test doubles returning 0, 5 and 7. -/
theorem sdk_return_code_mapping_witness :
    Init (stubApi 0 0) "pw" = kNoError ∧
    Init (stubApi 5 0) "pw" = ⟨5, ErrorCategory.ConnectionError⟩ ∧
    Init (stubApi 5 0) "pw" ≠ Init (stubApi 7 0) "pw" ∧
    (GetCameraInfo (fun x : Int => x) (stubApi 5 0) 1 CameraInfo.default).1 =
      ⟨5, ErrorCategory.GetEepromDataError⟩ ∧
    (GetCameraInfo (fun x : Int => x) (stubApi 5 0) 1 CameraInfo.default).1 ≠
      (GetCameraInfo (fun x : Int => x) (stubApi 7 0) 1 CameraInfo.default).1 :=
  ⟨(sdk_return_code_mapping (fun x : Int => x) (stubApi 0 0) (stubApi 7 0) "pw" 1
      CameraInfo.default Image.default).1.1.mpr rfl,
   (sdk_return_code_mapping (fun x : Int => x) (stubApi 5 0) (stubApi 7 0) "pw" 1
      CameraInfo.default Image.default).1.2.1 (by decide),
   (sdk_return_code_mapping (fun x : Int => x) (stubApi 5 0) (stubApi 7 0) "pw" 1
      CameraInfo.default Image.default).1.2.2 (by decide) (by decide) (by decide),
   (sdk_return_code_mapping (fun x : Int => x) (stubApi 5 0) (stubApi 7 0) "pw" 1
      CameraInfo.default Image.default).2.1.2.1 (by decide),
   (sdk_return_code_mapping (fun x : Int => x) (stubApi 5 0) (stubApi 7 0) "pw" 1
      CameraInfo.default Image.default).2.1.2.2 (by decide) (by decide) (by decide)⟩

end clpe

/-! ## Record layout -/

namespace clpe

/-- C8: the packed `EepromData` record has no padding between members. With the widths
2, 8, 4, 4 x 4, 4 x 4, 4, 4, 4, 20, 4, 4, 8, 2, 11 in declared order, every member's offset is
the sum of the widths of the members before it (`calibration_model` at 10, `fx` at 14, `k1`
at 30, `p1` at 78, `checksum` at 94) and `sizeof` is the sum of all widths, 107 bytes; the
declaration in `main.cpp` has the same layout. -/
theorem EepromData_layout :
    EepromData.packed = true ∧
    EepromData.fields.map FieldDecl.size =
      [2, 8, 4, 4, 4, 4, 4, 4, 4, 4, 4, 4, 4, 4, 20, 4, 4, 8, 2, 11] ∧
    fieldOffsetsFrom EepromData.packed 0 EepromData.fields =
      (List.range EepromData.fields.length).map
        (fun i => ((EepromData.fields.take i).map FieldDecl.size).sum) ∧
    fieldOffsetsFrom EepromData.packed 0 EepromData.fields =
      [0, 2, 10, 14, 18, 22, 26, 30, 34, 38, 42, 46, 50, 54, 58, 78, 82, 86, 94, 96] ∧
    offsetOf EepromData.packed EepromData.fields "calibration_model" = some 10 ∧
    offsetOf EepromData.packed EepromData.fields "fx" = some 14 ∧
    offsetOf EepromData.packed EepromData.fields "k1" = some 30 ∧
    offsetOf EepromData.packed EepromData.fields "p1" = some 78 ∧
    offsetOf EepromData.packed EepromData.fields "checksum" = some 94 ∧
    structSize EepromData.packed EepromData.fields =
      (EepromData.fields.map FieldDecl.size).sum ∧
    structSize EepromData.packed EepromData.fields = 107 ∧
    main_cpp.EepromData_fields = EepromData.fields := by
  decide

end clpe

/-! ## Callback routing (`main`) -/

namespace main_cpp

open clpe

/-- The setup loop of `main` run on a table that already has at least 4 elements: it
returns the table with elements 0..3 replaced by the publishers advertised as "cam_0" ..
"cam_3", in this order, and the size unchanged. -/
theorem createCameraPublishers_of_size (t : StdVector CameraPublisher) (h : 4 ≤ t.size) :
    createCameraPublishers t =
      some ⟨(((t.elems.set 0 (advertiseCamera "cam_0" 10)).set 1
                (advertiseCamera "cam_1" 10)).set 2
                (advertiseCamera "cam_2" 10)).set 3 (advertiseCamera "cam_3" 10),
            t.spare⟩ := by
  have hr : List.range 4 = [0, 1, 2, 3] := by decide
  have hres : t.reserve ⟨"", 0⟩ 4 = t := by
    unfold StdVector.reserve
    rw [if_pos]
    simp only [StdVector.capacity, StdVector.size] at *
    omega
  have h0 : (0 : Nat) < t.elems.length := by simp only [StdVector.size] at h; omega
  have h1 : (1 : Nat) < t.elems.length := by simp only [StdVector.size] at h; omega
  have h2 : (2 : Nat) < t.elems.length := by simp only [StdVector.size] at h; omega
  have h3 : (3 : Nat) < t.elems.length := by simp only [StdVector.size] at h; omega
  have s0 : ("cam_" ++ toString (0 : Nat)) = "cam_0" := by decide
  have s1 : ("cam_" ++ toString (1 : Nat)) = "cam_1" := by decide
  have s2 : ("cam_" ++ toString (2 : Nat)) = "cam_2" := by decide
  have s3 : ("cam_" ++ toString (3 : Nat)) = "cam_3" := by decide
  simp only [createCameraPublishers, hr, hres, List.foldlM_cons, List.foldlM_nil,
    StdVector.assign, StdVector.size, List.length_set, h0, h1, h2, h3, if_true,
    Option.bind_eq_bind, Option.some_bind, Option.pure_def, s0, s1, s2, s3]

/-- C10 (amended): the streaming callback of `main` does not validate `inst`. When the EEPROM
read for `inst` returns a non-zero status the process exits with that status; otherwise the
callback indexes `camera_pubs[inst]` directly: for `inst` below the size of the table the image
built from the buffer and the camera info are published on the publisher stored at index
`inst` and the callback returns 0, and for `inst` at or beyond the size of the table (`inst >= 4`
for a table of four) the lookup is out of bounds, nothing being validated or reported before
it. The setup loop assigns the publisher advertised as "cam_<i>" to `camera_pubs[i]` for
`i = 0, 1, 2, 3`: run on a table that has at least 4 elements it leaves that publisher at
index `i`, so that an id `inst < 4` is forwarded to the publisher advertised as "cam_<inst>". -/
theorem streamCallback_lookup {F D : Type} [Zero D] [One D] (widen : F → D)
    (api : ClpeClientApi F) (camera_pubs : StdVector CameraPublisher) (inst : Nat)
    (buffer : Nat → UInt8) (size : Nat) (frame_us : timeval) :
    ((api.Clpe_GetEepromData (toInt32 inst)).1 ≠ 0 →
      streamCallback widen api camera_pubs inst buffer size frame_us =
        CallbackResult.exited (api.Clpe_GetEepromData (toInt32 inst)).1) ∧
    ((api.Clpe_GetEepromData (toInt32 inst)).1 = 0 →
      ∃ info, GetCameraInfo widen api (toInt32 inst) = Except.ok info ∧
        (inst < camera_pubs.size → ∃ pub, camera_pubs.index inst = some pub ∧
          streamCallback widen api camera_pubs inst buffer size frame_us =
            CallbackResult.returned 0 pub (CreateImageMsg buffer size) info) ∧
        (camera_pubs.size ≤ inst →
          streamCallback widen api camera_pubs inst buffer size frame_us =
            CallbackResult.outOfBounds inst)) ∧
    (4 ≤ camera_pubs.size →
      ∃ pubs, createCameraPublishers camera_pubs = some pubs ∧
        pubs.size = camera_pubs.size ∧
        (∀ i, i < 4 → pubs.index i = some (advertiseCamera ("cam_" ++ toString i) 10)) ∧
        ((api.Clpe_GetEepromData (toInt32 inst)).1 = 0 → inst < 4 →
          ∃ info, GetCameraInfo widen api (toInt32 inst) = Except.ok info ∧
            streamCallback widen api pubs inst buffer size frame_us =
              CallbackResult.returned 0 (advertiseCamera ("cam_" ++ toString inst) 10)
                (CreateImageMsg buffer size) info) ∧
        ((api.Clpe_GetEepromData (toInt32 inst)).1 = 0 → pubs.size ≤ inst →
          streamCallback widen api pubs inst buffer size frame_us =
            CallbackResult.outOfBounds inst)) := by
  have hinfo : (api.Clpe_GetEepromData (toInt32 inst)).1 = 0 →
      ∃ info, GetCameraInfo widen api (toInt32 inst) = Except.ok info := by
    intro h
    simp only [GetCameraInfo, h, ne_eq, not_true_eq_false, if_false]
    exact ⟨_, rfl⟩
  have hsome : ∀ (t : StdVector CameraPublisher) (info : CameraInfo D) (pub : CameraPublisher),
      GetCameraInfo widen api (toInt32 inst) = Except.ok info → t.index inst = some pub →
      streamCallback widen api t inst buffer size frame_us =
        CallbackResult.returned 0 pub (CreateImageMsg buffer size) info := by
    intro t info pub hi hp
    simp only [streamCallback, hi, hp]
  have hnone : ∀ (t : StdVector CameraPublisher) (info : CameraInfo D),
      GetCameraInfo widen api (toInt32 inst) = Except.ok info → t.size ≤ inst →
      streamCallback widen api t inst buffer size frame_us = CallbackResult.outOfBounds inst := by
    intro t info hi hge
    have hn : t.index inst = none := by
      simp only [StdVector.index]
      exact List.getElem?_eq_none hge
    simp only [streamCallback, hi, hn]
  refine ⟨?_, ?_, ?_⟩
  · intro h
    simp only [streamCallback, GetCameraInfo, h, ne_eq, not_false_eq_true, if_true]
  · intro h
    obtain ⟨info, hi⟩ := hinfo h
    refine ⟨info, hi, ?_, hnone camera_pubs info hi⟩
    intro hlt
    have hp : camera_pubs.index inst = some (camera_pubs.elems.get ⟨inst, hlt⟩) := by
      simp only [StdVector.index]
      exact List.getElem?_eq_getElem hlt
    exact ⟨_, hp, hsome camera_pubs info _ hi hp⟩
  · intro h4
    have hidx : ∀ i, i < 4 →
        StdVector.index
          (⟨(((camera_pubs.elems.set 0 (advertiseCamera "cam_0" 10)).set 1
                (advertiseCamera "cam_1" 10)).set 2
                (advertiseCamera "cam_2" 10)).set 3 (advertiseCamera "cam_3" 10),
            camera_pubs.spare⟩ : StdVector CameraPublisher) i
          = some (advertiseCamera ("cam_" ++ toString i) 10) := by
      intro i hi
      have hl : 4 ≤ camera_pubs.elems.length := h4
      have s0 : ("cam_" ++ toString (0 : Nat)) = "cam_0" := by decide
      have s1 : ("cam_" ++ toString (1 : Nat)) = "cam_1" := by decide
      have s2 : ("cam_" ++ toString (2 : Nat)) = "cam_2" := by decide
      have s3 : ("cam_" ++ toString (3 : Nat)) = "cam_3" := by decide
      interval_cases i
      · simp [StdVector.index, List.getElem?_set, s0]
        intro he
        rw [he] at hl
        exact absurd hl (by decide)
      · simp [StdVector.index, List.getElem?_set, s1]
        omega
      · simp [StdVector.index, List.getElem?_set, s2]
        omega
      · simp [StdVector.index, List.getElem?_set, s3]
        omega
    refine ⟨_, createCameraPublishers_of_size camera_pubs h4, ?_, hidx, ?_, ?_⟩
    · simp [StdVector.size]
    · intro h hlt
      obtain ⟨info, hi⟩ := hinfo h
      exact ⟨info, hi, hsome _ info _ hi (hidx inst hlt)⟩
    · intro h hge
      obtain ⟨info, hi⟩ := hinfo h
      exact hnone _ info hi hge

/-- C10 (amended), at a table of four publishers: camera id 2 is forwarded to "cam_2",
camera id 4 is looked up out of bounds, and a failing EEPROM read (status 7) exits. -/
theorem streamCallback_lookup_witness :
    4 ≤ (StdVector.ofRange (List.replicate 4 (advertiseCamera "" 0))).size ∧
    (∃ pubs info,
      createCameraPublishers (StdVector.ofRange (List.replicate 4 (advertiseCamera "" 0)))
        = some pubs ∧
      GetCameraInfo (fun x : Int => x) (stubApi 0 0) (toInt32 2) = Except.ok info ∧
      streamCallback (fun x : Int => x) (stubApi 0 0) pubs 2 (fun _ => 9) 3 ⟨0, 0⟩ =
        CallbackResult.returned 0 (advertiseCamera ("cam_" ++ toString 2) 10)
          (CreateImageMsg (fun _ => 9) 3) info) ∧
    streamCallback (fun x : Int => x) (stubApi 0 0)
        (StdVector.ofRange (List.replicate 4 (advertiseCamera "" 0))) 4 (fun _ => 9) 3 ⟨0, 0⟩
      = (CallbackResult.outOfBounds 4 : CallbackResult Int) ∧
    streamCallback (fun x : Int => x) (stubApi 7 0)
        (StdVector.ofRange (List.replicate 4 (advertiseCamera "" 0))) 2 (fun _ => 9) 3 ⟨0, 0⟩
      = (CallbackResult.exited 7 : CallbackResult Int) := by
  refine ⟨by decide, ?_, ?_, ?_⟩
  · obtain ⟨pubs, hp, _, _, hfwd, _⟩ :=
      (streamCallback_lookup (fun x : Int => x) (stubApi 0 0)
        (StdVector.ofRange (List.replicate 4 (advertiseCamera "" 0))) 2 (fun _ => 9) 3
        ⟨0, 0⟩).2.2 (by decide)
    obtain ⟨info, hi, hs⟩ := hfwd rfl (by decide)
    exact ⟨pubs, info, hp, hi, hs⟩
  · obtain ⟨_, _, _, hoob⟩ :=
      (streamCallback_lookup (fun x : Int => x) (stubApi 0 0)
        (StdVector.ofRange (List.replicate 4 (advertiseCamera "" 0))) 4 (fun _ => 9) 3
        ⟨0, 0⟩).2.1 rfl
    exact hoob (by decide)
  · exact (streamCallback_lookup (fun x : Int => x) (stubApi 7 0)
      (StdVector.ofRange (List.replicate 4 (advertiseCamera "" 0))) 2 (fun _ => 9) 3
      ⟨0, 0⟩).1 (by decide)

/-- C10, as stated, fails. The callback run with `inst = 4` against a table that holds the
four publishers "cam_0" .. "cam_3" goes straight to the lookup `camera_pubs[4]`, out of
bounds: the id is neither validated nor reported. Moreover the setup loop of `main`, run on
the empty static table, does not produce a table of four publishers: after `reserve(4)` the
size is still 0 and the first assignment `camera_pubs[0] = ...` is already out of bounds. -/
theorem streamCallback_lookup_counterexample :
    streamCallback (fun x : Int => x) (stubApi 0 0)
        (StdVector.ofRange
          [advertiseCamera "cam_0" 10, advertiseCamera "cam_1" 10,
           advertiseCamera "cam_2" 10, advertiseCamera "cam_3" 10])
        4 (fun _ => 9) 3 ⟨0, 0⟩
      = (CallbackResult.outOfBounds 4 : CallbackResult Int) ∧
    (camera_pubs_init.reserve ⟨"", 0⟩ 4).size = 0 ∧
    createCameraPublishers camera_pubs_init = none := by
  decide

end main_cpp
